import Mathlib

/-!
Verification of the salary-stoplight calculator core
(`src/streamlit_app.py`): benchmark reference data, the two
compensation-model variants (`HourlyTemplateForm`, `RVUTemplateForm`)
and the percentile classifier `get_percentile_for_comp`.

Numbers are modelled as rationals (`ℚ`): every arithmetic operation the
core performs (sum, product, difference, exact division) is exact on the
concrete inputs in scope, and hour/RVU counts (Streamlit sliders and the
integer number-input) are naturals. Python's exception on division by
zero and its `None` return for inapplicable metrics are modelled by an
explicit result type `MetricResult`. Non-finite float values that could
be handed to the classifier are modelled by the type `Val`, which mirrors
Python float comparison semantics: `nan < p` and `inf < p` are `False`
for every threshold `p`, while `-inf < p` is `True`.
-/

namespace SalaryStoplight

/-- `Specialty` enum from the source (one member). -/
inductive Specialty
  | SURGERY_TRAUMA
deriving DecidableEq

/-- `Metric` enum from the source (member names kept, including the
source's spelling `COMPERSATION`). -/
inductive Metric
  | TOTAL_COMPENSATION
  | TOTAL_HOURS
  | TOTAL_RVUS
  | COMPERSATION_PER_HOUR
  | COMPERSATION_PER_RVU
deriving DecidableEq

/-- `TableRow` pydantic model: each statistic field is optional, with
default `None`. -/
structure TableRow where
  specialty : Specialty
  practice_type : String
  metric : Metric
  groups : Option ℕ := none
  providers : Option ℕ := none
  mean : Option ℚ := none
  std_dev : Option ℚ := none
  p25 : Option ℚ := none
  p50 : Option ℚ := none
  p75 : Option ℚ := none
  p90 : Option ℚ := none
deriving DecidableEq

/-- First row of `STATS_TABLE`: Surgery: Trauma, Total Compensation. -/
def trauma_total_comp_row : TableRow :=
  { specialty := Specialty.SURGERY_TRAUMA
    practice_type := "All"
    metric := Metric.TOTAL_COMPENSATION
    groups := some 76
    providers := some 262
    mean := some 485989
    std_dev := some 160927
    p25 := some 405815
    p50 := some 473355
    p75 := some 550500
    p90 := some 662930 }

/-- Second row of `STATS_TABLE`: Surgery: Trauma, Total RVUs
(no p90, no groups, no mean, no std_dev). -/
def trauma_total_rvus_row : TableRow :=
  { specialty := Specialty.SURGERY_TRAUMA
    practice_type := "All"
    metric := Metric.TOTAL_RVUS
    providers := some 55
    p25 := some 6270
    p50 := some 11107
    p75 := some 14285 }

/-- Third row of `STATS_TABLE`: Surgery: Trauma, Compensation per RVU
(no p90, no groups, no mean, no std_dev). -/
def trauma_comp_per_rvu_row : TableRow :=
  { specialty := Specialty.SURGERY_TRAUMA
    practice_type := "All"
    metric := Metric.COMPERSATION_PER_RVU
    providers := some 47
    p25 := some (34.78 : ℚ)
    p50 := some (47.45 : ℚ)
    p75 := some (64.67 : ℚ) }

/-- The module-level literal `STATS_TABLE`. -/
def STATS_TABLE : List TableRow :=
  [trauma_total_comp_row, trauma_total_rvus_row, trauma_comp_per_rvu_row]

/-- A Python float value as seen by the classifier: finite (exact
rational), positive infinity, negative infinity, or NaN. -/
inductive Val
  | finite (q : ℚ)
  | posInf
  | negInf
  | nan
deriving DecidableEq

/-- Python `comp < p` for a float `comp` against a finite threshold `p`:
`nan < p` and `inf < p` are `False`; `-inf < p` is `True`. -/
def Val.lt : Val → ℚ → Bool
  | Val.finite q, p => decide (q < p)
  | Val.posInf, _ => false
  | Val.negInf, _ => true
  | Val.nan, _ => false

/-- Python `stats.pXX is not None and comp < stats.pXX`: `False` when the
threshold is absent, otherwise the float comparison. -/
def ltOpt (comp : Val) : Option ℚ → Bool
  | none => false
  | some p => comp.lt p

/-- `get_percentile_for_comp(stats, comp)` from the source: the ordered
threshold ladder, first match wins, strict `<`, absent thresholds
skipped; returns (bucket label, color). -/
def get_percentile_for_comp (stats : TableRow) (comp : Val) : String × String :=
  if ltOpt comp stats.p25 then ("below 25th percentile", "orange")
  else if ltOpt comp stats.p50 then ("between 25th and 50th percentile", "green")
  else if ltOpt comp stats.p75 then ("between 50th and 75th percentile", "yellow")
  else if ltOpt comp stats.p90 then ("between 75th and 90th percentile", "red")
  else ("above 90th percentile", "red")

/-- Outcome of `compute_metric`: a number, Python `None` (metric not
applicable to the variant), or the `ZeroDivisionError` Python raises when
the denominator of a per-hour / per-unit metric is zero. -/
inductive MetricResult
  | ok (q : ℚ)
  | none
  | divByZero
deriving DecidableEq

/-- Inputs of `HourlyTemplateForm`: rates and other compensation are
non-negative floats (modelled as ℚ), hour counts come from integer
sliders (modelled as ℕ). -/
structure HourlyTemplateForm where
  onsite_rate : ℚ
  call_rate : ℚ
  other_compensation : ℚ
  onsite_hours : ℕ
  call_hours : ℕ
deriving DecidableEq

/-- `HourlyTemplateForm._compute_compensation`. -/
def HourlyTemplateForm.compute_compensation (f : HourlyTemplateForm) : ℚ :=
  f.onsite_rate * (f.onsite_hours : ℚ) + f.call_rate * (f.call_hours : ℚ)
    + f.other_compensation

/-- `HourlyTemplateForm._compute_total_hours`. -/
def HourlyTemplateForm.compute_total_hours (f : HourlyTemplateForm) : ℕ :=
  f.onsite_hours + f.call_hours

/-- `HourlyTemplateForm.compute_metric`: the if/elif chain from the
source. The per-hour branch divides; in Python a zero denominator raises
`ZeroDivisionError`, modelled as `MetricResult.divByZero`. -/
def HourlyTemplateForm.compute_metric (f : HourlyTemplateForm) : Metric → MetricResult
  | Metric.TOTAL_COMPENSATION => MetricResult.ok f.compute_compensation
  | Metric.TOTAL_HOURS => MetricResult.ok (f.compute_total_hours : ℚ)
  | Metric.COMPERSATION_PER_HOUR =>
      if f.compute_total_hours = 0 then MetricResult.divByZero
      else MetricResult.ok (f.compute_compensation / (f.compute_total_hours : ℚ))
  | _ => MetricResult.none

/-- Inputs of `RVUTemplateForm`: base compensation, per-RVU rate and
other compensation are non-negative floats (ℚ); the RVU threshold
(integer number-input) and total RVUs (integer slider) are ℕ. -/
structure RVUTemplateForm where
  base_comp : ℚ
  rvu_threshold : ℕ
  rvu_rate : ℚ
  other_compensation : ℚ
  total_rvus : ℕ
deriving DecidableEq

/-- `RVUTemplateForm._compute_compensation`: piecewise-linear threshold
model. -/
def RVUTemplateForm.compute_compensation (f : RVUTemplateForm) : ℚ :=
  (if f.total_rvus ≤ f.rvu_threshold then f.base_comp
   else f.base_comp + ((f.total_rvus - f.rvu_threshold : ℕ) : ℚ) * f.rvu_rate)
    + f.other_compensation

/-- `RVUTemplateForm._compute_total_rvus`. -/
def RVUTemplateForm.compute_total_rvus (f : RVUTemplateForm) : ℕ :=
  f.total_rvus

/-- `RVUTemplateForm.compute_metric`: the if/elif chain from the source.
The per-RVU branch divides; in Python a zero denominator raises
`ZeroDivisionError`, modelled as `MetricResult.divByZero`. -/
def RVUTemplateForm.compute_metric (f : RVUTemplateForm) : Metric → MetricResult
  | Metric.TOTAL_COMPENSATION => MetricResult.ok f.compute_compensation
  | Metric.TOTAL_RVUS => MetricResult.ok (f.compute_total_rvus : ℚ)
  | Metric.COMPERSATION_PER_RVU =>
      if f.compute_total_rvus = 0 then MetricResult.divByZero
      else MetricResult.ok (f.compute_compensation / (f.compute_total_rvus : ℚ))
  | _ => MetricResult.none

/-- Severity tags used by the specification's classifier ladder. -/
inductive Severity
  | low
  | normal
  | elevated
  | high
deriving DecidableEq

/-- The specification's spelled-out ladder test on an optional threshold:
skip (fail) when absent, strict `<` when present. Stated for finite
values, which is the domain the specification's ladder describes. -/
def specLt (value : ℚ) : Option ℚ → Bool
  | none => false
  | some p => decide (value < p)

/-- The classifier as the specification words it (§4.3): ordered ladder,
first match wins, strict `<`, absent thresholds skipped, returning
(bucket label, severity). Written from the spec to be compared with
`get_percentile_for_comp`. -/
def classifySpec (stats : TableRow) (value : ℚ) : String × Severity :=
  if specLt value stats.p25 then ("below 25th percentile", Severity.low)
  else if specLt value stats.p50 then ("between 25th and 50th percentile", Severity.normal)
  else if specLt value stats.p75 then ("between 50th and 75th percentile", Severity.elevated)
  else if specLt value stats.p90 then ("between 75th and 90th percentile", Severity.high)
  else ("above 90th percentile", Severity.high)

/-- Rendering of the specification's severities as the source's colors:
low ↦ orange, normal ↦ green, elevated ↦ yellow, high ↦ red. -/
def colorOfSeverity : Severity → String
  | Severity.low => "orange"
  | Severity.normal => "green"
  | Severity.elevated => "yellow"
  | Severity.high => "red"

/-- `a ≤ b` between two optional percentile values; vacuously true when
either is absent. -/
def leOpt : Option ℚ → Option ℚ → Bool
  | some a, some b => decide (a ≤ b)
  | _, _ => true

/-- All six pairwise ordering constraints among the present percentile
fields of a row. -/
def percentilesOrdered (r : TableRow) : Bool :=
  leOpt r.p25 r.p50 && leOpt r.p25 r.p75 && leOpt r.p25 r.p90 &&
  leOpt r.p50 r.p75 && leOpt r.p50 r.p90 && leOpt r.p75 r.p90

/-- A benchmark row with every percentile absent (the degenerate case of
the ladder). -/
def allAbsentRow : TableRow :=
  { specialty := Specialty.SURGERY_TRAUMA
    practice_type := "All"
    metric := Metric.TOTAL_HOURS }

/-- On a finite value the source's guarded comparison coincides with the
spec ladder's test. -/
theorem ltOpt_finite (q : ℚ) (o : Option ℚ) : ltOpt (Val.finite q) o = specLt q o := by
cases o <;> rfl

/-- NaN is never `<` a threshold, present or absent. -/
theorem ltOpt_nan (o : Option ℚ) : ltOpt Val.nan o = false := by
cases o <;> rfl

/-- +∞ is never `<` a threshold, present or absent. -/
theorem ltOpt_posInf (o : Option ℚ) : ltOpt Val.posInf o = false := by
cases o <;> rfl

/-- C1: for every benchmark row and finite value, `get_percentile_for_comp`
computes exactly the spec's ordered threshold ladder (first match wins,
strict `<`, absent thresholds skipped), with severities rendered as the
source's colors; and on a row with all four thresholds absent every value
— finite or not — classifies as "above 90th percentile". -/
theorem classifier_refines_spec_ladder (stats : TableRow) (q : ℚ) (v : Val) :
    get_percentile_for_comp stats (Val.finite q)
      = ((classifySpec stats q).1, colorOfSeverity (classifySpec stats q).2)
    ∧ (stats.p25 = none → stats.p50 = none → stats.p75 = none → stats.p90 = none →
        get_percentile_for_comp stats v = ("above 90th percentile", "red")) := by
constructor
· unfold get_percentile_for_comp classifySpec colorOfSeverity
  rw [ltOpt_finite, ltOpt_finite, ltOpt_finite, ltOpt_finite]
  split_ifs <;> rfl
· intro h25 h50 h75 h90
  unfold get_percentile_for_comp
  rw [h25, h50, h75, h90]
  rfl

/-- C1 witness: on the all-absent row, the concrete value 123 classifies
as "above 90th percentile". -/
theorem classifier_refines_spec_ladder_witness :
    get_percentile_for_comp allAbsentRow (Val.finite 123)
      = ("above 90th percentile", "red") :=
(classifier_refines_spec_ladder allAbsentRow 123 (Val.finite 123)).2 rfl rfl rfl rfl

/-- C4: on the Total Compensation benchmark row (p25=405815, p50=473355,
p75=550500, p90=662930), value 400000 classifies "below 25th percentile"
and value 473355 — exactly p50 — fails the strict `< p50` test and lands
in "between 50th and 75th percentile". -/
theorem boundary_equal_to_p50_lands_higher :
    trauma_total_comp_row ∈ STATS_TABLE
    ∧ get_percentile_for_comp trauma_total_comp_row (Val.finite 400000)
        = ("below 25th percentile", "orange")
    ∧ get_percentile_for_comp trauma_total_comp_row (Val.finite 473355)
        = ("between 50th and 75th percentile", "yellow") := by
refine ⟨?_, ?_, ?_⟩
· simp [STATS_TABLE]
· decide
· decide

/-- C5: for every Hourly-variant input, total compensation is
onsite_rate·onsite_hours + call_rate·call_hours + other_compensation and
total hours is onsite_hours + call_hours, exactly. -/
theorem hourly_total_comp_and_hours_exact (f : HourlyTemplateForm) :
    f.compute_metric Metric.TOTAL_COMPENSATION
      = MetricResult.ok (f.onsite_rate * (f.onsite_hours : ℚ)
          + f.call_rate * (f.call_hours : ℚ) + f.other_compensation)
    ∧ f.compute_metric Metric.TOTAL_HOURS
      = MetricResult.ok ((f.onsite_hours : ℚ) + (f.call_hours : ℚ)) := by
constructor
· rfl
· simp [HourlyTemplateForm.compute_metric, HourlyTemplateForm.compute_total_hours]

/-- C6: the Productivity-variant total compensation is the piecewise
threshold model: `≤ threshold` gives base_comp + other_compensation
(boundary included), `> threshold` adds (units − threshold)·rate, and
units = threshold + 1 gives base_comp + rate + other_compensation. -/
theorem rvu_piecewise_compensation (f : RVUTemplateForm) :
    (f.total_rvus ≤ f.rvu_threshold →
      f.compute_metric Metric.TOTAL_COMPENSATION
        = MetricResult.ok (f.base_comp + f.other_compensation))
    ∧ (f.rvu_threshold < f.total_rvus →
      f.compute_metric Metric.TOTAL_COMPENSATION
        = MetricResult.ok (f.base_comp
            + ((f.total_rvus - f.rvu_threshold : ℕ) : ℚ) * f.rvu_rate
            + f.other_compensation))
    ∧ (f.total_rvus = f.rvu_threshold + 1 →
      f.compute_metric Metric.TOTAL_COMPENSATION
        = MetricResult.ok (f.base_comp + f.rvu_rate + f.other_compensation)) := by
refine ⟨?_, ?_, ?_⟩
· intro h
  simp [RVUTemplateForm.compute_metric, RVUTemplateForm.compute_compensation, h]
· intro h
  simp [RVUTemplateForm.compute_metric, RVUTemplateForm.compute_compensation,
    Nat.not_le.mpr h, add_assoc]
· intro h
  simp [RVUTemplateForm.compute_metric, RVUTemplateForm.compute_compensation, h,
    Nat.add_sub_cancel_left, add_assoc]

/-- Productivity form with total RVUs exactly at the threshold. -/
def rvuAtThreshold : RVUTemplateForm := ⟨300000, 5000, 50, 0, 5000⟩

/-- Productivity form with total RVUs one above the threshold. -/
def rvuOneAbove : RVUTemplateForm := ⟨300000, 5000, 50, 0, 5001⟩

/-- C6 witness: at units = threshold the compensation is the base, and at
units = threshold + 1 it is base + rate. -/
theorem rvu_piecewise_compensation_witness :
    rvuAtThreshold.compute_metric Metric.TOTAL_COMPENSATION = MetricResult.ok 300000
    ∧ rvuOneAbove.compute_metric Metric.TOTAL_COMPENSATION = MetricResult.ok 300050 := by
constructor
· have h := (rvu_piecewise_compensation rvuAtThreshold).1 (by decide)
  simpa [rvuAtThreshold] using h
· have h := (rvu_piecewise_compensation rvuOneAbove).2.2 rfl
  rw [h]
  norm_num [rvuOneAbove]

/-- The Hourly scenario from the spec: rate 200 for 2080 on-site hours,
rate 50 for 500 on-call hours, no other compensation. -/
def hourlyScenario : HourlyTemplateForm := ⟨200, 50, 0, 2080, 500⟩

/-- C7 counterexample: on the Hourly scenario (onsite 200 × 2080, call
50 × 500, other 0) the code's total compensation is 441000 — equal to
416000 + 25000 — and in particular not the claimed 466000. -/
theorem hourly_scenario_total_is_441000 :
    hourlyScenario.compute_metric Metric.TOTAL_COMPENSATION = MetricResult.ok 441000
    ∧ hourlyScenario.compute_metric Metric.TOTAL_COMPENSATION
        ≠ MetricResult.ok 466000 := by
constructor
· norm_num [hourlyScenario, HourlyTemplateForm.compute_metric,
    HourlyTemplateForm.compute_compensation]
· norm_num [hourlyScenario, HourlyTemplateForm.compute_metric,
    HourlyTemplateForm.compute_compensation]

/-- C7 amended: the Hourly scenario yields total compensation 441000
(416000 on-site plus 25000 on-call), total hours 2580, and compensation
per hour 441000/2580 = 7350/43 ≈ 170.93 (within half a cent, so it
renders as 170.93 at two decimals). -/
theorem hourly_scenario_values :
    hourlyScenario.compute_metric Metric.TOTAL_COMPENSATION = MetricResult.ok 441000
    ∧ hourlyScenario.compute_metric Metric.TOTAL_HOURS = MetricResult.ok 2580
    ∧ hourlyScenario.compute_metric Metric.COMPERSATION_PER_HOUR
        = MetricResult.ok (7350 / 43)
    ∧ |(7350 : ℚ) / 43 - 17093 / 100| < 1 / 200 := by
refine ⟨?_, ?_, ?_, ?_⟩
· norm_num [hourlyScenario, HourlyTemplateForm.compute_metric,
    HourlyTemplateForm.compute_compensation]
· norm_num [hourlyScenario, HourlyTemplateForm.compute_metric,
    HourlyTemplateForm.compute_total_hours]
· norm_num [hourlyScenario, HourlyTemplateForm.compute_metric,
    HourlyTemplateForm.compute_compensation, HourlyTemplateForm.compute_total_hours]
· rw [abs_sub_lt_iff]
  constructor <;> norm_num

/-- C2: when the denominator is zero — Hourly with
onsite_hours + call_hours = 0, or Productivity with total_rvus = 0 — the
per-hour / per-RVU metric is a division-by-zero failure (Python raises
`ZeroDivisionError`), a result distinct from every valid number. -/
theorem div_by_zero_surfaced (hf : HourlyTemplateForm) (rf : RVUTemplateForm)
    (hh : hf.onsite_hours + hf.call_hours = 0) (hr : rf.total_rvus = 0) :
    hf.compute_metric Metric.COMPERSATION_PER_HOUR = MetricResult.divByZero
    ∧ rf.compute_metric Metric.COMPERSATION_PER_RVU = MetricResult.divByZero
    ∧ ∀ q : ℚ, MetricResult.divByZero ≠ MetricResult.ok q := by
refine ⟨?_, ?_, ?_⟩
· simp [HourlyTemplateForm.compute_metric, HourlyTemplateForm.compute_total_hours, hh]
· simp [RVUTemplateForm.compute_metric, RVUTemplateForm.compute_total_rvus, hr]
· intro q h
  exact MetricResult.noConfusion h

/-- C2 witness: concrete zero-hour Hourly inputs and zero-RVU
Productivity inputs both produce the division-by-zero failure. -/
theorem div_by_zero_surfaced_witness :
    (⟨200, 50, 0, 0, 0⟩ : HourlyTemplateForm).compute_metric
        Metric.COMPERSATION_PER_HOUR = MetricResult.divByZero
    ∧ (⟨300000, 5000, 50, 0, 0⟩ : RVUTemplateForm).compute_metric
        Metric.COMPERSATION_PER_RVU = MetricResult.divByZero :=
⟨(div_by_zero_surfaced ⟨200, 50, 0, 0, 0⟩ ⟨300000, 5000, 50, 0, 0⟩ rfl rfl).1,
 (div_by_zero_surfaced ⟨200, 50, 0, 0, 0⟩ ⟨300000, 5000, 50, 0, 0⟩ rfl rfl).2.1⟩

/-- C8: each variant answers Python `None` — distinct from every valid
number and from the division-by-zero failure — for the metrics it cannot
produce: the Hourly variant for RVU metrics, the Productivity variant for
hour metrics. -/
theorem not_applicable_is_distinct (hf : HourlyTemplateForm) (rf : RVUTemplateForm) :
    hf.compute_metric Metric.TOTAL_RVUS = MetricResult.none
    ∧ hf.compute_metric Metric.COMPERSATION_PER_RVU = MetricResult.none
    ∧ rf.compute_metric Metric.TOTAL_HOURS = MetricResult.none
    ∧ rf.compute_metric Metric.COMPERSATION_PER_HOUR = MetricResult.none
    ∧ (∀ q : ℚ, MetricResult.none ≠ MetricResult.ok q)
    ∧ MetricResult.none ≠ MetricResult.divByZero := by
refine ⟨rfl, rfl, rfl, rfl, ?_, ?_⟩
· intro q h
  exact MetricResult.noConfusion h
· intro h
  exact MetricResult.noConfusion h

/-- C9: every row of `STATS_TABLE` has its present percentile fields in
non-decreasing order (all six pairwise comparisons among p25, p50, p75,
p90). -/
theorem stats_table_percentiles_ordered :
    STATS_TABLE.all percentilesOrdered = true := by
simp only [STATS_TABLE, List.all_cons, List.all_nil, percentilesOrdered, leOpt,
  trauma_total_comp_row, trauma_total_rvus_row, trauma_comp_per_rvu_row,
  Bool.and_eq_true, decide_eq_true_eq, Bool.and_true]
norm_num

/-- C10: the classifier is total — over every row and every value,
finite or not, it returns exactly one of the five (bucket, color) pairs,
with both of the two highest buckets colored "red" — and as a pure
function it is trivially deterministic. -/
theorem classifier_total_and_five_buckets (stats : TableRow) (v : Val) :
    get_percentile_for_comp stats v ∈
      [("below 25th percentile", "orange"),
       ("between 25th and 50th percentile", "green"),
       ("between 50th and 75th percentile", "yellow"),
       ("between 75th and 90th percentile", "red"),
       ("above 90th percentile", "red")]
    ∧ get_percentile_for_comp stats v = get_percentile_for_comp stats v := by
refine ⟨?_, rfl⟩
unfold get_percentile_for_comp
split_ifs <;> simp

/-- C3 counterexample: called on the Total Compensation row with NaN (and
with +∞), the classifier does not fail — it returns the bucket
"above 90th percentile". -/
theorem classifier_accepts_nonfinite :
    get_percentile_for_comp trauma_total_comp_row Val.nan
      = ("above 90th percentile", "red")
    ∧ get_percentile_for_comp trauma_total_comp_row Val.posInf
      = ("above 90th percentile", "red") :=
⟨rfl, rfl⟩

/-- C3 amended: the classifier performs no finiteness check and never
fails; under Python float comparison semantics NaN and +∞ always classify
as "above 90th percentile", and −∞ classifies into the first bucket whose
threshold is present (e.g. "below 25th percentile" when p25 is set). -/
theorem classifier_total_on_nonfinite (stats : TableRow) (p : ℚ) :
    get_percentile_for_comp stats Val.nan = ("above 90th percentile", "red")
    ∧ get_percentile_for_comp stats Val.posInf = ("above 90th percentile", "red")
    ∧ (stats.p25 = some p →
        get_percentile_for_comp stats Val.negInf
          = ("below 25th percentile", "orange")) := by
refine ⟨?_, ?_, ?_⟩
· unfold get_percentile_for_comp
  rw [ltOpt_nan, ltOpt_nan, ltOpt_nan, ltOpt_nan]
  rfl
· unfold get_percentile_for_comp
  rw [ltOpt_posInf, ltOpt_posInf, ltOpt_posInf, ltOpt_posInf]
  rfl
· intro h
  unfold get_percentile_for_comp
  rw [h]
  rfl

/-- C3 amended witness: on the Total Compensation row (p25 present), −∞
classifies "below 25th percentile". -/
theorem classifier_total_on_nonfinite_witness :
    get_percentile_for_comp trauma_total_comp_row Val.negInf
      = ("below 25th percentile", "orange") :=
(classifier_total_on_nonfinite trauma_total_comp_row 405815).2.2 rfl

end SalaryStoplight
